import Mathlib

/-!
Shallow embedding of `src/danfoss.py`: the resilient Zigbee write queue
(`queue_zigbee_write`, `process_pending_writes`), the weighted climate
aggregator (`calculate_weighted_climate`), the device scan
(`get_all_climate_devices`) and the feedback loop
(`update_room_climate_sensors`, `update_external_temperatures`).

Modelling conventions:
- Python floats are modelled as `ℚ`; `time.time()` instants as `ℤ` seconds.
- The module-level dict `_pending_writes` is an explicit association list
  with Python-dict semantics (insert replaces in place, new keys append).
- The external collaborators (device registry, ZHA gateway resolution,
  transport write outcome, entity lookup, sensor state store) are passed in
  as functions; a transport attempt's outcome is a `Bool` as in the source,
  where `attempt_zigbee_write` catches all failures and returns `False`.
- Python one-decimal formatting (the .1f form) is modelled as the integer
  number of tenths nearest to the value (no tie arises in any verified
  scenario).
-/

namespace Danfoss

/-- Constant DEVICE_MODEL from the source. -/
def DEVICE_MODEL : String := "eTRV0103"

/-- Constant CLUSTER_THERMOSTAT = 0x0201. -/
def CLUSTER_THERMOSTAT : Nat := 0x0201

/-- Constant ATTR_EXTERNAL_MEASURED_ROOM_SENSOR = 0x4015. -/
def ATTR_EXTERNAL_MEASURED_ROOM_SENSOR : Nat := 0x4015

/-- Constant EXTERNAL_SENSOR_DISABLED = -8000. -/
def EXTERNAL_SENSOR_DISABLED : ℤ := -8000

/-- Constant LABEL_SENSOR_WEIGHT_PREFIX = "sensor_weight_" (renamed for Lean). -/
def SENSOR_WEIGHT_LABEL : String := "sensor_weight_"

/-- Constant MAX_RETRIES = 10. -/
def MAX_RETRIES : Nat := 10

/-- Constant BASE_DELAY_SECONDS = 60. -/
def BASE_DELAY_SECONDS : Nat := 60

/-- Constant MAX_DELAY_SECONDS = 14400. -/
def MAX_DELAY_SECONDS : Nat := 14400

/-- A Home Assistant `DeviceEntry` restricted to the fields the script reads:
`id`, `name_by_user`, `model`, `area_id`, `labels`. -/
structure DeviceEntry where
  id : String
  name_by_user : String
  model : String
  area_id : Option String
  labels : List String
deriving DecidableEq

/-- The key of the pending-writes dict: `(device_id, cluster, attribute)`. -/
abbrev WKey := String × Nat × Nat

/-- One entry of `_pending_writes` (the dict stored per key in
`queue_zigbee_write`). `attr` models the source's `attribute` field. -/
structure PendingWrite (V : Type) where
  device_id : String
  device_name : String
  cluster : Nat
  attr : Nat
  value : V
  description : String
  retry_count : Nat
  last_attempt : ℤ
deriving DecidableEq

/-- The `_pending_writes` dict, as an association list in insertion order. -/
abbrev PendingMap (V : Type) := List (WKey × PendingWrite V)

/-- Python `dict` lookup `m[k]` / `m.get(k)`. -/
def pyGet {V : Type} : PendingMap V → WKey → Option (PendingWrite V)
  | [], _ => none
  | (k', e) :: rest, k => if k' = k then some e else pyGet rest k

/-- Python `dict` store `m[k] = e`: replaces in place, appends when new. -/
def pySet {V : Type} : PendingMap V → WKey → PendingWrite V → PendingMap V
  | [], k, e => [(k, e)]
  | (k', e') :: rest, k, e =>
      if k' = k then (k, e) :: rest else (k', e') :: pySet rest k e

/-- Python `del m[k]` (removes the entry with key `k`, if present). -/
def pyDel {V : Type} : PendingMap V → WKey → PendingMap V
  | [], _ => []
  | (k', e') :: rest, k => if k' = k then rest else (k', e') :: pyDel rest k

/-- Function `queue_zigbee_write` (src/danfoss.py lines 112-153). External effects are
parameters: `zha_ok` is whether `get_zigbee_device` resolves the device
(`False` returns immediately with no mutation), `write_ok` the outcome of
the immediate `attempt_zigbee_write`, `now` the value of `time.time()`.
Returns (Python return value, updated `_pending_writes`). -/
def queue_zigbee_write {V : Type} (m : PendingMap V) (device : DeviceEntry)
    (cluster attr : Nat) (value : V) (description : String)
    (zha_ok write_ok : Bool) (now : ℤ) : Bool × PendingMap V :=
  let key : WKey := (device.id, cluster, attr)
  if zha_ok = false then
    (false, m)
  else if write_ok then
    (true, pyDel m key)
  else
    (false, pySet m key
      ⟨device.id, device.name_by_user, cluster, attr, value, description, 0, now⟩)

/-- The backoff computation in `process_pending_writes` line 215:
`min(BASE_DELAY_SECONDS * (2 ** entry['retry_count']), MAX_DELAY_SECONDS)`. -/
def backoff_delay (retry_count : Nat) : Nat :=
  min (BASE_DELAY_SECONDS * 2 ^ retry_count) MAX_DELAY_SECONDS

/-- The external collaborators of one sweep: `dr.async_get` (device registry),
`get_zigbee_device` resolution, and the transport outcome of
`attempt_zigbee_write` for each key (each key is attempted at most once per
sweep, so a function of the key suffices). -/
structure SweepEnv where
  registry : String → Option DeviceEntry
  zha : DeviceEntry → Bool
  write_ok : WKey → Bool

/-- The body of the `for key in list(_pending_writes.keys())` loop of
`process_pending_writes` (lines 211-256). The state is the pending map
together with the list of keys for which a transport write was attempted
(instrumentation of the `attempt_zigbee_write` calls). -/
def sweep_step {V : Type} (env : SweepEnv) (now : ℤ)
    (st : PendingMap V × List WKey) (key : WKey) : PendingMap V × List WKey :=
  match pyGet st.1 key with
  | none => st
  | some entry =>
    if now - entry.last_attempt < (backoff_delay entry.retry_count : ℤ) then
      st
    else
      match env.registry entry.device_id with
      | none =>
          -- device no longer exists: removed, no attempt, no failure counted
          (pyDel st.1 key, st.2)
      | some device =>
          if env.zha device = false then
            -- ZHA resolution failure: counted like a failed attempt
            let e2 := { entry with retry_count := entry.retry_count + 1,
                                   last_attempt := now }
            (if MAX_RETRIES ≤ e2.retry_count then pyDel st.1 key
             else pySet st.1 key e2, st.2)
          else if env.write_ok key then
            (pyDel st.1 key, st.2 ++ [key])
          else
            let e2 := { entry with retry_count := entry.retry_count + 1,
                                   last_attempt := now }
            (if MAX_RETRIES ≤ e2.retry_count then pyDel st.1 key
             else pySet st.1 key e2, st.2 ++ [key])

/-- Function `process_pending_writes` (lines 202-256): fold the loop body over the
snapshot `list(_pending_writes.keys())`. Returns the final pending map and
the keys whose transport write was attempted during the sweep. -/
def process_pending_writes {V : Type} (env : SweepEnv) (now : ℤ)
    (m : PendingMap V) : PendingMap V × List WKey :=
  (m.map Prod.fst).foldl (sweep_step env now) (m, [])

/-- The two `SensorDeviceClass` values the script aggregates. -/
inductive DeviceClass where
  | temperature
  | humidity
deriving DecidableEq

/-- The body of the `for device, weight in weighted_devices` loop of
`calculate_weighted_climate` (lines 334-344), accumulating
`(total_weighted_value, total_weight)`. `entityFor` models
`get_climate_entity_for_device` (for the fixed device class), `sensorValue`
models `get_sensor_value`; both return `none` exactly in the source's
unavailable cases. -/
def climate_step (entityFor : DeviceEntry → Option String)
    (sensorValue : String → Option ℚ) (acc : ℚ × ℚ)
    (dw : DeviceEntry × ℚ) : ℚ × ℚ :=
  match entityFor dw.1 with
  | none => acc
  | some entity_id =>
    match sensorValue entity_id with
    | none => acc
    | some value => (acc.1 + value * dw.2, acc.2 + dw.2)

/-- Function `calculate_weighted_climate` (lines 322-349): weighted average of the
available readings, `none` (Python `None`) when the accumulated weight is 0. -/
def calculate_weighted_climate (entityFor : DeviceEntry → Option String)
    (sensorValue : String → Option ℚ)
    (weighted_devices : List (DeviceEntry × ℚ)) : Option ℚ :=
  let tot := weighted_devices.foldl (climate_step entityFor sensorValue) (0, 0)
  if tot.2 = 0 then none else some (tot.1 / tot.2)

/-- Spec-side definition, "samples with an available reading": the `(value,
weight)` pairs that survive the source's two `continue`/exclusion checks. -/
def includedPairs (entityFor : DeviceEntry → Option String)
    (sensorValue : String → Option ℚ)
    (weighted_devices : List (DeviceEntry × ℚ)) : List (ℚ × ℚ) :=
  weighted_devices.filterMap
    (fun dw => ((entityFor dw.1).bind sensorValue).map (fun v => (v, dw.2)))

/-- Spec-side definition: the sum of the weights of the samples whose reading
is available (the claim's "remaining weights"). -/
def availableWeightSum (entityFor : DeviceEntry → Option String)
    (sensorValue : String → Option ℚ)
    (weighted_devices : List (DeviceEntry × ℚ)) : ℚ :=
  ((includedPairs entityFor sensorValue weighted_devices).map Prod.snd).sum

/-- Spec-side definition: the weighted-value numerator over the samples whose
reading is available. -/
def availableNumerator (entityFor : DeviceEntry → Option String)
    (sensorValue : String → Option ℚ)
    (weighted_devices : List (DeviceEntry × ℚ)) : ℚ :=
  ((includedPairs entityFor sensorValue weighted_devices).map
    (fun p => p.1 * p.2)).sum

/-- Append `v` to the group of key `k` (Python
`if k not in d: d[k] = []` then `d[k].append(v)`): insertion order of keys is
first-seen, values append at the end of their group. -/
def addToGroup {β : Type} : List (String × List β) → String → β →
    List (String × List β)
  | [], k, v => [(k, [v])]
  | (k', vs) :: rest, k, v =>
      if k' = k then (k', vs ++ [v]) :: rest
      else (k', vs) :: addToGroup rest k v

/-- The body of the device loop of `get_all_climate_devices` (lines 68-92).
`parseF` models Python `float(...)` on the text after the weight-label head
(`none` models `ValueError`); after the first label with that head the
source `break`s out of the label loop, hence the single `find?`. -/
def scan_device (parseF : String → Option ℚ)
    (acc : List (String × List DeviceEntry) ×
           List (String × List (DeviceEntry × ℚ)))
    (d : DeviceEntry) :
    List (String × List DeviceEntry) ×
    List (String × List (DeviceEntry × ℚ)) :=
  match d.area_id with
  | none => acc
  | some area =>
    let acc1 :=
      if d.model = DEVICE_MODEL then (addToGroup acc.1 area d, acc.2) else acc
    match d.labels.find? (fun l => SENSOR_WEIGHT_LABEL.isPrefixOf l) with
    | none => acc1
    | some l =>
      match parseF (l.drop SENSOR_WEIGHT_LABEL.length) with
      | none => acc1
      | some weight => (acc1.1, addToGroup acc1.2 area (d, weight))

/-- Function `get_all_climate_devices` (lines 59-94): one scan over the registry's
devices, returning `(trv_devices_by_area, weighted_devices_by_area)`. -/
def get_all_climate_devices (parseF : String → Option ℚ)
    (devices : List DeviceEntry) :
    List (String × List DeviceEntry) ×
    List (String × List (DeviceEntry × ℚ)) :=
  devices.foldl (scan_device parseF) ([], [])

/-- Python `d.get(k, [])` on a by-area group dict. -/
def lookupGroup {β : Type} (m : List (String × List β)) (k : String) :
    List β :=
  match m.find? (fun p => p.1 = k) with
  | some p => p.2
  | none => []

/-- The state published for a virtual room sensor: either a numeric value
rendered with one decimal (held as the integer number of tenths) or the
explicit `"unavailable"` string. -/
inductive SensorState where
  | val : ℤ → SensorState
  | unavailable : SensorState
deriving DecidableEq

/-- Python one-decimal formatting (.1f): the integer number of tenths
nearest to the value. -/
def formatOneDecimal (q : ℚ) : ℤ := round (q * 10)

/-- One `state.set` call of `update_room_climate_sensors`, identified by the
area and measurement kind that determine the entity id string
(injective in `(area, kind)`); the
fixed metadata attributes are omitted. -/
structure PublishEvent where
  area : String
  kind : DeviceClass
  st : SensorState
deriving DecidableEq

/-- The body of the `for area_id, trv_devices in ...` loop of
`update_room_climate_sensors` (lines 505-553): the temperature publish
(always emitted, `unavailable` when aggregation yields `None`) followed by
the humidity publish (skipped when aggregation yields `None`). -/
def area_events (entityFor : DeviceClass → DeviceEntry → Option String)
    (sensorValue : String → Option ℚ)
    (weighted_by_area : List (String × List (DeviceEntry × ℚ)))
    (p : String × List DeviceEntry) : List PublishEvent :=
  let weighted := lookupGroup weighted_by_area p.1
  (match calculate_weighted_climate (entityFor .temperature) sensorValue
      weighted with
   | some t => [⟨p.1, .temperature, .val (formatOneDecimal t)⟩]
   | none => [⟨p.1, .temperature, .unavailable⟩])
  ++
  (match calculate_weighted_climate (entityFor .humidity) sensorValue
      weighted with
   | some h => [⟨p.1, .humidity, .val (formatOneDecimal h)⟩]
   | none => [])

/-- Function `update_room_climate_sensors` (lines 491-555), as the list of publish
events it emits over the areas that have TRVs. -/
def update_room_climate_sensors
    (entityFor : DeviceClass → DeviceEntry → Option String)
    (sensorValue : String → Option ℚ)
    (trv_by_area : List (String × List DeviceEntry))
    (weighted_by_area : List (String × List (DeviceEntry × ℚ))) :
    List PublishEvent :=
  trv_by_area.flatMap (area_events entityFor sensorValue weighted_by_area)

/-- Apply published events to a sensor-state store (`state.set`), keyed by
`(area, kind)` — the components of the entity id string. -/
def applyEvents (store : String → DeviceClass → Option SensorState)
    (evs : List PublishEvent) : String → DeviceClass → Option SensorState :=
  evs.foldl
    (fun s ev => fun a k =>
      if a = ev.area ∧ k = ev.kind then some ev.st else s a k)
    store

/-- One write request submitted to `queue_zigbee_write` by
`update_external_temperatures` (the description string is omitted). -/
structure WriteReq where
  device : DeviceEntry
  cluster : Nat
  attr : Nat
  value : ℤ
deriving DecidableEq

/-- Function `update_external_temperatures` (lines 561-608), as the list of write
requests it submits. A missing virtual sensor (Python `NameError`) or an
`unavailable` state yields `EXTERNAL_SENSOR_DISABLED`; a numeric state `t`
tenths yields `int(round(float(state) * 100))`. -/
def update_external_temperatures
    (store : String → DeviceClass → Option SensorState)
    (trv_by_area : List (String × List DeviceEntry)) : List WriteReq :=
  trv_by_area.flatMap (fun p =>
    let temperature : ℤ :=
      match store p.1 .temperature with
      | none => EXTERNAL_SENSOR_DISABLED
      | some .unavailable => EXTERNAL_SENSOR_DISABLED
      | some (.val tenths) => round (((tenths : ℚ) / 10) * 100)
    p.2.map (fun d =>
      ⟨d, CLUSTER_THERMOSTAT, ATTR_EXTERNAL_MEASURED_ROOM_SENSOR,
        temperature⟩))

/-! Concrete scenario inputs used by the counterexample / scenario theorems. -/

/-- Scenario (feedback loop): the controlled TRV of area `livingroom`. -/
def trvDevC3 : DeviceEntry :=
  ⟨"trv1", "Living Room TRV", DEVICE_MODEL, some "livingroom", []⟩

/-- Scenario: weighted sensor with weight 1.0 reading 20.0 °C. -/
def sensorDevA : DeviceEntry :=
  ⟨"s1", "Sensor A", "acme_th1", some "livingroom", ["sensor_weight_1.0"]⟩

/-- Scenario: weighted sensor with weight 0.5 reading 22.0 °C. -/
def sensorDevB : DeviceEntry :=
  ⟨"s2", "Sensor B", "acme_th1", some "livingroom", ["sensor_weight_0.5"]⟩

/-- Scenario: `trv_devices_by_area` for the feedback-loop scenario. -/
def trvGroupsC3 : List (String × List DeviceEntry) :=
  [("livingroom", [trvDevC3])]

/-- Scenario: `weighted_devices_by_area` for the feedback-loop scenario. -/
def weightedGroupsC3 : List (String × List (DeviceEntry × ℚ)) :=
  [("livingroom", [(sensorDevA, 1), (sensorDevB, 1/2)])]

/-- Scenario: entity lookup — each sensor has a temperature entity, nothing
has a humidity entity. -/
def entityForC3 : DeviceClass → DeviceEntry → Option String :=
  fun k d =>
    match k with
    | .temperature =>
        if d.id = "s1" then some "sensor.s1_temperature"
        else if d.id = "s2" then some "sensor.s2_temperature"
        else none
    | .humidity => none

/-- Scenario: sensor readings — 20.0 °C and 22.0 °C. -/
def sensorValueC3 : String → Option ℚ :=
  fun e =>
    if e = "sensor.s1_temperature" then some 20
    else if e = "sensor.s2_temperature" then some 22
    else none

/-- Scenario: the publish events of one aggregation cycle. -/
def eventsC3 : List PublishEvent :=
  update_room_climate_sensors entityForC3 sensorValueC3 trvGroupsC3
    weightedGroupsC3

/-- Scenario: the sensor-state store after the cycle published its events
(initially empty). -/
def storeC3 : String → DeviceClass → Option SensorState :=
  applyEvents (fun _ _ => none) eventsC3

/-- Scenario: the feedback writes submitted right after publishing. -/
def writesC3 : List WriteReq :=
  update_external_temperatures storeC3 trvGroupsC3

/-- Counterexample input (sweep): key of the single pending entry. -/
def keyC5 : WKey := ("dev1", CLUSTER_THERMOSTAT, ATTR_EXTERNAL_MEASURED_ROOM_SENSOR)

/-- Counterexample input: a device present in the registry. -/
def devC5 : DeviceEntry := ⟨"dev1", "TRV 1", DEVICE_MODEL, some "a", []⟩

/-- Counterexample input: a due pending entry with retry count 0. -/
def entryC5 : PendingWrite ℤ :=
  ⟨"dev1", "TRV 1", CLUSTER_THERMOSTAT, ATTR_EXTERNAL_MEASURED_ROOM_SENSOR,
    2100, "ext temp", 0, 0⟩

/-- Counterexample input: the pending map with just that entry. -/
def mC5 : PendingMap ℤ := [(keyC5, entryC5)]

/-- Counterexample input: the registry still has the device, but ZHA
resolution fails (`get_zigbee_device` returns `None`). -/
def envC5 : SweepEnv :=
  ⟨fun i => if i = "dev1" then some devC5 else none,
   fun _ => false,
   fun _ => true⟩

/-- Fixture: a TRV device present in the registry. -/
def wDev : DeviceEntry := ⟨"dev1", "TRV 1", DEVICE_MODEL, some "area1", []⟩

/-- Fixture: a pending-write key. -/
def wKey : WKey :=
  ("dev1", CLUSTER_THERMOSTAT, ATTR_EXTERNAL_MEASURED_ROOM_SENSOR)

/-- Fixture: a pending entry with retry count 0 attempted at time 0. -/
def wEntry : PendingWrite ℤ :=
  ⟨"dev1", "TRV 1", CLUSTER_THERMOSTAT, ATTR_EXTERNAL_MEASURED_ROOM_SENSOR,
    2100, "ext temp", 0, 0⟩

/-- Fixture: a pending map holding just `wEntry`. -/
def wMap : PendingMap ℤ := [(wKey, wEntry)]

/-- Fixture: a sweep environment whose registry is empty (only reached by
entries that are due). -/
def wEnvIdle : SweepEnv := ⟨fun _ => none, fun _ => false, fun _ => false⟩

/-- Fixture: registry and ZHA resolution succeed, the transport write fails. -/
def wEnvFail : SweepEnv :=
  ⟨fun i => if i = "dev1" then some wDev else none,
   fun _ => true, fun _ => false⟩

/-- Fixture: an area with one controlled device and no weighted sensors. -/
def trvGroupsC8 : List (String × List DeviceEntry) := [("areaB", [wDev])]

/-- Fixture: entity lookup that finds nothing. -/
def noEntity : DeviceClass → DeviceEntry → Option String := fun _ _ => none

/-- Fixture: sensor reads that find nothing. -/
def noValue : String → Option ℚ := fun _ => none

/-- Fixture: a device without an area, carrying a TRV model and a weight
label. -/
def orphanDev : DeviceEntry :=
  ⟨"d9", "Orphan", DEVICE_MODEL, none, ["sensor_weight_1.0"]⟩

/-! Helper lemmas about the Python-dict operations. -/

lemma pyGet_pySet_self {V : Type} (m : PendingMap V) (k : WKey)
    (e : PendingWrite V) : pyGet (pySet m k e) k = some e := by
  induction m with
  | nil => simp [pySet, pyGet]
  | cons p rest ih =>
    obtain ⟨k', e'⟩ := p
    by_cases h : k' = k
    · simp [pySet, pyGet, h]
    · simp [pySet, pyGet, h, ih]

lemma pyGet_pySet_ne {V : Type} (m : PendingMap V) (k k' : WKey)
    (e : PendingWrite V) (hne : k' ≠ k) :
    pyGet (pySet m k' e) k = pyGet m k := by
  induction m with
  | nil => simp [pySet, pyGet, hne]
  | cons p rest ih =>
    obtain ⟨k'', e''⟩ := p
    by_cases h : k'' = k'
    · subst h
      simp [pySet, pyGet, hne]
    · by_cases h2 : k'' = k
      · simp [pySet, pyGet, h, h2, Ne.symm hne]
      · simp [pySet, pyGet, h, h2, ih]

lemma pyGet_pyDel_ne {V : Type} (m : PendingMap V) (k k' : WKey)
    (hne : k' ≠ k) : pyGet (pyDel m k') k = pyGet m k := by
  induction m with
  | nil => simp [pyDel]
  | cons p rest ih =>
    obtain ⟨k'', e''⟩ := p
    by_cases h : k'' = k'
    · subst h
      simp [pyDel, pyGet, hne]
    · by_cases h2 : k'' = k
      · simp [pyDel, pyGet, h, h2, Ne.symm hne]
      · simp [pyDel, pyGet, h, h2, ih]

lemma pyGet_eq_none_iff {V : Type} (m : PendingMap V) (k : WKey) :
    pyGet m k = none ↔ k ∉ m.map Prod.fst := by
  induction m with
  | nil => simp [pyGet]
  | cons p rest ih =>
    obtain ⟨k', e'⟩ := p
    by_cases h : k' = k
    · simp [pyGet, h]
    · simp [pyGet, h, ih, Ne.symm h]

lemma keys_pySet {V : Type} (m : PendingMap V) (k : WKey)
    (e : PendingWrite V) :
    (pySet m k e).map Prod.fst
      = if k ∈ m.map Prod.fst then m.map Prod.fst
        else m.map Prod.fst ++ [k] := by
  induction m with
  | nil => simp [pySet]
  | cons p rest ih =>
    obtain ⟨k', e'⟩ := p
    by_cases h : k' = k
    · subst h
      simp [pySet]
    · simp only [pySet, if_neg h, List.map_cons, List.mem_cons, ih]
      by_cases h2 : k ∈ rest.map Prod.fst
      · simp [h2, Ne.symm h]
      · simp [h2, Ne.symm h]

lemma nodup_keys_pySet {V : Type} (m : PendingMap V) (k : WKey)
    (e : PendingWrite V) (hnd : (m.map Prod.fst).Nodup) :
    ((pySet m k e).map Prod.fst).Nodup := by
  rw [keys_pySet]
  by_cases h : k ∈ m.map Prod.fst
  · simpa [h] using hnd
  · simp [h, List.nodup_append, hnd]

lemma filter_key_eq_nil {V : Type} (m : PendingMap V) (k : WKey)
    (h : pyGet m k = none) :
    m.filter (fun p => p.1 = k) = [] := by
  induction m with
  | nil => rfl
  | cons p rest ih =>
    obtain ⟨k', e'⟩ := p
    by_cases hk : k' = k
    · simp [pyGet, hk] at h
    · simp only [pyGet, if_neg hk] at h
      simp [List.filter_cons, hk, ih h]

lemma filter_pySet_self {V : Type} (m : PendingMap V) (k : WKey)
    (e : PendingWrite V) (hnd : (m.map Prod.fst).Nodup) :
    (pySet m k e).filter (fun p => p.1 = k) = [(k, e)] := by
  induction m with
  | nil => simp [pySet, List.filter]
  | cons p rest ih =>
    obtain ⟨k', e'⟩ := p
    rw [List.map_cons, List.nodup_cons] at hnd
    by_cases h : k' = k
    · subst h
      have hnone : pyGet rest k' = none :=
        (pyGet_eq_none_iff rest k').mpr hnd.1
      simp [pySet, List.filter_cons, filter_key_eq_nil rest k' hnone]
    · simp [pySet, h, List.filter_cons, ih hnd.2]

lemma pyGet_pyDel_self {V : Type} (m : PendingMap V) (k : WKey)
    (hnd : (m.map Prod.fst).Nodup) : pyGet (pyDel m k) k = none := by
  induction m with
  | nil => rfl
  | cons p rest ih =>
    obtain ⟨k', e'⟩ := p
    rw [List.map_cons, List.nodup_cons] at hnd
    by_cases h : k' = k
    · subst h
      simp only [pyDel, if_pos rfl]
      exact (pyGet_eq_none_iff rest k').mpr hnd.1
    · simp [pyDel, pyGet, h, ih hnd.2]

/-! Helper lemmas about the sweep loop. -/

lemma sweep_step_get_ne {V : Type} (env : SweepEnv) (now : ℤ)
    (st : PendingMap V × List WKey) (k key : WKey) (hne : k ≠ key) :
    pyGet (sweep_step env now st k).1 key = pyGet st.1 key := by
  unfold sweep_step
  cases pyGet st.1 k with
  | none => rfl
  | some entry =>
    by_cases hdue : now - entry.last_attempt <
        (backoff_delay entry.retry_count : ℤ)
    · simp [hdue]
    · simp only [hdue, if_false]
      cases env.registry entry.device_id with
      | none => simp [pyGet_pyDel_ne st.1 key k hne]
      | some device =>
        by_cases hz : env.zha device = false
        · simp only [hz, if_true, if_pos rfl]
          by_cases hmax : MAX_RETRIES ≤ entry.retry_count + 1
          · simp [hmax, pyGet_pyDel_ne st.1 key k hne]
          · simp [hmax, pyGet_pySet_ne st.1 key k _ hne]
        · by_cases hw : env.write_ok k
          · simp [hz, hw, pyGet_pyDel_ne st.1 key k hne]
          · by_cases hmax : MAX_RETRIES ≤ entry.retry_count + 1
            · simp [hz, hw, hmax, pyGet_pyDel_ne st.1 key k hne]
            · simp [hz, hw, hmax, pyGet_pySet_ne st.1 key k _ hne]

lemma sweep_step_snd {V : Type} (env : SweepEnv) (now : ℤ)
    (st : PendingMap V × List WKey) (k : WKey) :
    (sweep_step env now st k).2 = st.2
      ∨ (sweep_step env now st k).2 = st.2 ++ [k] := by
  unfold sweep_step
  cases pyGet st.1 k with
  | none => exact Or.inl rfl
  | some entry =>
    by_cases hdue : now - entry.last_attempt <
        (backoff_delay entry.retry_count : ℤ)
    · simp [hdue]
    · simp only [hdue, if_false]
      cases env.registry entry.device_id with
      | none => simp
      | some device =>
        by_cases hz : env.zha device = false
        · simp [hz]
        · by_cases hw : env.write_ok k
          · simp [hz, hw]
          · simp [hz, hw]

lemma sweep_step_not_due {V : Type} (env : SweepEnv) (now : ℤ)
    (st : PendingMap V × List WKey) (key : WKey) (e : PendingWrite V)
    (hget : pyGet st.1 key = some e)
    (hdue : now - e.last_attempt < (backoff_delay e.retry_count : ℤ)) :
    sweep_step env now st key = st := by
  unfold sweep_step
  rw [hget]
  simp [hdue]

lemma foldl_sweep_untouched {V : Type} (env : SweepEnv) (now : ℤ)
    (key : WKey) (e : PendingWrite V)
    (hdue : now - e.last_attempt < (backoff_delay e.retry_count : ℤ)) :
    ∀ (keys : List WKey) (st : PendingMap V × List WKey),
      pyGet st.1 key = some e → key ∉ st.2 →
      pyGet (keys.foldl (sweep_step env now) st).1 key = some e
        ∧ key ∉ (keys.foldl (sweep_step env now) st).2 := by
  intro keys
  induction keys with
  | nil => intro st h1 h2; exact ⟨h1, h2⟩
  | cons k rest ih =>
    intro st h1 h2
    rw [List.foldl_cons]
    by_cases hk : k = key
    · subst hk
      rw [sweep_step_not_due env now st k e h1 hdue]
      exact ih st h1 h2
    · apply ih
      · rw [sweep_step_get_ne env now st k key hk]
        exact h1
      · intro hmem
        rcases sweep_step_snd env now st k with hs | hs
        · rw [hs] at hmem; exact h2 hmem
        · rw [hs] at hmem
          rcases List.mem_append.mp hmem with hm | hm
          · exact h2 hm
          · exact hk (List.mem_singleton.mp hm).symm

lemma foldl_sweep_absent {V : Type} (env : SweepEnv) (now : ℤ)
    (key : WKey) :
    ∀ (keys : List WKey) (st : PendingMap V × List WKey),
      key ∉ keys → pyGet st.1 key = none → key ∉ st.2 →
      pyGet (keys.foldl (sweep_step env now) st).1 key = none
        ∧ key ∉ (keys.foldl (sweep_step env now) st).2 := by
  intro keys
  induction keys with
  | nil => intro st _ h1 h2; exact ⟨h1, h2⟩
  | cons k rest ih =>
    intro st hk h1 h2
    rw [List.mem_cons] at hk
    push_neg at hk
    rw [List.foldl_cons]
    apply ih _ hk.2
    · rw [sweep_step_get_ne env now st k key (Ne.symm hk.1)]
      exact h1
    · intro hmem
      rcases sweep_step_snd env now st k with hs | hs
      · rw [hs] at hmem; exact h2 hmem
      · rw [hs] at hmem
        rcases List.mem_append.mp hmem with hm | hm
        · exact h2 hm
        · exact hk.1 (List.mem_singleton.mp hm)

/-! Helper lemmas about the weighted aggregator. -/

lemma includedPairs_cons_none (entityFor : DeviceEntry → Option String)
    (sensorValue : String → Option ℚ) (dw : DeviceEntry × ℚ)
    (tl : List (DeviceEntry × ℚ))
    (hf : ((entityFor dw.1).bind sensorValue).map (fun v => (v, dw.2)) = none) :
    includedPairs entityFor sensorValue (dw :: tl)
      = includedPairs entityFor sensorValue tl := by
  unfold includedPairs
  simp only [List.filterMap_cons]
  rw [hf]

lemma includedPairs_cons_some (entityFor : DeviceEntry → Option String)
    (sensorValue : String → Option ℚ) (dw : DeviceEntry × ℚ)
    (tl : List (DeviceEntry × ℚ)) (p : ℚ × ℚ)
    (hf : ((entityFor dw.1).bind sensorValue).map (fun v => (v, dw.2))
            = some p) :
    includedPairs entityFor sensorValue (dw :: tl)
      = p :: includedPairs entityFor sensorValue tl := by
  unfold includedPairs
  simp only [List.filterMap_cons]
  rw [hf]

lemma climate_foldl (entityFor : DeviceEntry → Option String)
    (sensorValue : String → Option ℚ) :
    ∀ (wd : List (DeviceEntry × ℚ)) (a b : ℚ),
      wd.foldl (climate_step entityFor sensorValue) (a, b)
        = (a + availableNumerator entityFor sensorValue wd,
           b + availableWeightSum entityFor sensorValue wd) := by
  intro wd
  induction wd with
  | nil => intro a b; simp [availableNumerator, availableWeightSum, includedPairs]
  | cons dw tl ih =>
    intro a b
    rw [List.foldl_cons]
    cases he : entityFor dw.1 with
    | none =>
      have hstep : climate_step entityFor sensorValue (a, b) dw = (a, b) := by
        simp [climate_step, he]
      have hf : ((entityFor dw.1).bind sensorValue).map
          (fun v => (v, dw.2)) = none := by rw [he]; rfl
      rw [hstep, ih a b]
      simp only [availableNumerator, availableWeightSum]
      rw [includedPairs_cons_none entityFor sensorValue dw tl hf]
    | some eid =>
      cases hs : sensorValue eid with
      | none =>
        have hstep : climate_step entityFor sensorValue (a, b) dw = (a, b) := by
          simp [climate_step, he, hs]
        have hf : ((entityFor dw.1).bind sensorValue).map
            (fun v => (v, dw.2)) = none := by rw [he]; simp [hs]
        rw [hstep, ih a b]
        simp only [availableNumerator, availableWeightSum]
        rw [includedPairs_cons_none entityFor sensorValue dw tl hf]
      | some v =>
        have hstep : climate_step entityFor sensorValue (a, b) dw
            = (a + v * dw.2, b + dw.2) := by
          simp [climate_step, he, hs]
        have hf : ((entityFor dw.1).bind sensorValue).map
            (fun v => (v, dw.2)) = some (v, dw.2) := by rw [he]; simp [hs]
        rw [hstep, ih]
        simp only [availableNumerator, availableWeightSum]
        rw [includedPairs_cons_some entityFor sensorValue dw tl (v, dw.2) hf]
        simp only [List.map_cons, List.sum_cons]
        rw [Prod.mk.injEq]
        constructor <;> ring

lemma calculate_weighted_climate_eq (entityFor : DeviceEntry → Option String)
    (sensorValue : String → Option ℚ) (wd : List (DeviceEntry × ℚ)) :
    calculate_weighted_climate entityFor sensorValue wd
      = if availableWeightSum entityFor sensorValue wd = 0 then none
        else some (availableNumerator entityFor sensorValue wd
                    / availableWeightSum entityFor sensorValue wd) := by
  unfold calculate_weighted_climate
  rw [climate_foldl entityFor sensorValue wd 0 0]
  simp

lemma pairs_weighted_sum_le (l : List (ℚ × ℚ)) (hi : ℚ)
    (hw : ∀ p ∈ l, 0 ≤ p.2) (hv : ∀ p ∈ l, p.1 ≤ hi) :
    (l.map (fun p => p.1 * p.2)).sum ≤ hi * (l.map Prod.snd).sum := by
  induction l with
  | nil => simp
  | cons p tl ih =>
    simp only [List.map_cons, List.sum_cons]
    have h1 : p.1 * p.2 ≤ hi * p.2 :=
      mul_le_mul_of_nonneg_right (hv p (List.mem_cons_self p tl))
        (hw p (List.mem_cons_self p tl))
    have h2 := ih (fun q hq => hw q (List.mem_cons_of_mem p hq))
      (fun q hq => hv q (List.mem_cons_of_mem p hq))
    calc p.1 * p.2 + (tl.map (fun p => p.1 * p.2)).sum
        ≤ hi * p.2 + hi * (tl.map Prod.snd).sum := add_le_add h1 h2
      _ = hi * (p.2 + (tl.map Prod.snd).sum) := by ring

lemma le_pairs_weighted_sum (l : List (ℚ × ℚ)) (lo : ℚ)
    (hw : ∀ p ∈ l, 0 ≤ p.2) (hv : ∀ p ∈ l, lo ≤ p.1) :
    lo * (l.map Prod.snd).sum ≤ (l.map (fun p => p.1 * p.2)).sum := by
  induction l with
  | nil => simp
  | cons p tl ih =>
    simp only [List.map_cons, List.sum_cons]
    have h1 : lo * p.2 ≤ p.1 * p.2 :=
      mul_le_mul_of_nonneg_right (hv p (List.mem_cons_self p tl))
        (hw p (List.mem_cons_self p tl))
    have h2 := ih (fun q hq => hw q (List.mem_cons_of_mem p hq))
      (fun q hq => hv q (List.mem_cons_of_mem p hq))
    calc lo * (p.2 + (tl.map Prod.snd).sum)
        = lo * p.2 + lo * (tl.map Prod.snd).sum := by ring
      _ ≤ p.1 * p.2 + (tl.map (fun p => p.1 * p.2)).sum := add_le_add h1 h2

lemma pairs_weight_sum_pos (l : List (ℚ × ℚ)) (hne : l ≠ [])
    (hw : ∀ p ∈ l, 0 < p.2) : 0 < (l.map Prod.snd).sum := by
  apply List.sum_pos
  · intro a ha
    rcases List.mem_map.mp ha with ⟨p, hp, rfl⟩
    exact hw p hp
  · simpa using hne

/-! Helper lemmas about the device scan and the publish loop. -/

lemma addToGroup_forall {β : Type} (A : β → String → Prop) :
    ∀ (g : List (String × List β)) (k : String) (v : β),
      (∀ q ∈ g, ∀ x ∈ q.2, A x q.1) → A v k →
      ∀ q ∈ addToGroup g k v, ∀ x ∈ q.2, A x q.1 := by
  intro g
  induction g with
  | nil =>
    intro k v _ hv q hq x hx
    simp only [addToGroup, List.mem_singleton] at hq
    subst hq
    simp only [List.mem_singleton] at hx
    subst hx
    exact hv
  | cons p rest ih =>
    intro k v hg hv q hq x hx
    obtain ⟨k', vs⟩ := p
    by_cases h : k' = k
    · rw [addToGroup, if_pos h] at hq
      rcases List.mem_cons.mp hq with hq | hq
      · subst hq
        rcases List.mem_append.mp hx with hx | hx
        · exact hg (k', vs) (List.mem_cons_self _ _) x hx
        · rw [List.mem_singleton.mp hx, h]
          exact hv
      · exact hg q (List.mem_cons_of_mem _ hq) x hx
    · rw [addToGroup, if_neg h] at hq
      rcases List.mem_cons.mp hq with hq | hq
      · subst hq
        exact hg (k', vs) (List.mem_cons_self _ _) x hx
      · exact ih k v (fun r hr => hg r (List.mem_cons_of_mem _ hr)) hv q hq x hx

/-- Invariant of the device scan: every grouped device carries the area it
was grouped under. -/
lemma scan_devices_area (parseF : String → Option ℚ) :
    ∀ (devices : List DeviceEntry)
      (acc : List (String × List DeviceEntry) ×
             List (String × List (DeviceEntry × ℚ))),
      (∀ q ∈ acc.1, ∀ d ∈ q.2, d.area_id = some q.1) →
      (∀ q ∈ acc.2, ∀ dw ∈ q.2, dw.1.area_id = some q.1) →
      (∀ q ∈ (devices.foldl (scan_device parseF) acc).1, ∀ d ∈ q.2,
          d.area_id = some q.1)
        ∧ (∀ q ∈ (devices.foldl (scan_device parseF) acc).2, ∀ dw ∈ q.2,
          dw.1.area_id = some q.1) := by
  intro devices
  induction devices with
  | nil => intro acc h1 h2; exact ⟨h1, h2⟩
  | cons d tl ih =>
    intro acc h1 h2
    rw [List.foldl_cons]
    apply ih
    · -- TRV grouping of the scan step
      cases harea : d.area_id with
      | none => simpa [scan_device, harea] using h1
      | some area =>
        have h1' : ∀ q ∈ (if d.model = DEVICE_MODEL
              then (addToGroup acc.1 area d, acc.2) else acc).1,
            ∀ x ∈ q.2, x.area_id = some q.1 := by
          by_cases hm : d.model = DEVICE_MODEL
          · simpa [hm] using
              addToGroup_forall (fun (x : DeviceEntry) a => x.area_id = some a)
                acc.1 area d h1 harea
          · simpa [hm] using h1
        simp only [scan_device, harea]
        split
        · exact h1'
        · split
          · exact h1'
          · simpa using h1'
    · -- weighted grouping of the scan step
      cases harea : d.area_id with
      | none => simpa [scan_device, harea] using h2
      | some area =>
        have h2' : ∀ q ∈ (if d.model = DEVICE_MODEL
              then (addToGroup acc.1 area d, acc.2) else acc).2,
            ∀ x ∈ q.2, x.1.area_id = some q.1 := by
          by_cases hm : d.model = DEVICE_MODEL
          · simpa [hm] using h2
          · simpa [hm] using h2
        simp only [scan_device, harea]
        split
        · exact h2'
        · split
          · exact h2'
          · simpa using addToGroup_forall
              (fun (x : DeviceEntry × ℚ) a => x.1.area_id = some a)
              _ area _ h2' harea

lemma area_events_mem_area (entityFor : DeviceClass → DeviceEntry → Option String)
    (sensorValue : String → Option ℚ)
    (weighted_by_area : List (String × List (DeviceEntry × ℚ)))
    (p : String × List DeviceEntry) (ev : PublishEvent)
    (hev : ev ∈ area_events entityFor sensorValue weighted_by_area p) :
    ev.area = p.1 := by
  unfold area_events at hev
  rcases List.mem_append.mp hev with h | h
  · cases hm : calculate_weighted_climate (entityFor .temperature) sensorValue
        (lookupGroup weighted_by_area p.1) with
    | none => rw [hm] at h; rw [List.mem_singleton.mp h]
    | some t => rw [hm] at h; rw [List.mem_singleton.mp h]
  · cases hm : calculate_weighted_climate (entityFor .humidity) sensorValue
        (lookupGroup weighted_by_area p.1) with
    | none => rw [hm] at h; simp at h
    | some t => rw [hm] at h; rw [List.mem_singleton.mp h]

lemma area_events_no_humidity
    (entityFor : DeviceClass → DeviceEntry → Option String)
    (sensorValue : String → Option ℚ)
    (weighted_by_area : List (String × List (DeviceEntry × ℚ)))
    (p : String × List DeviceEntry)
    (hnone : calculate_weighted_climate (entityFor .humidity) sensorValue
        (lookupGroup weighted_by_area p.1) = none)
    (s : SensorState) :
    (⟨p.1, .humidity, s⟩ : PublishEvent)
      ∉ area_events entityFor sensorValue weighted_by_area p := by
  intro hev
  simp only [area_events] at hev
  rw [hnone] at hev
  rcases List.mem_append.mp hev with h | h
  · cases hm : calculate_weighted_climate (entityFor .temperature) sensorValue
        (lookupGroup weighted_by_area p.1) with
    | none => rw [hm] at h; exact absurd (List.mem_singleton.mp h) (by simp)
    | some t => rw [hm] at h; exact absurd (List.mem_singleton.mp h) (by simp)
  · simp at h

/-! Computation lemmas for the feedback-loop scenario. -/

lemma calcTempC3 :
    calculate_weighted_climate (entityForC3 .temperature) sensorValueC3
      (lookupGroup weightedGroupsC3 "livingroom") = some (62/3) := by
  simp [calculate_weighted_climate, climate_step, lookupGroup, weightedGroupsC3,
    entityForC3, sensorValueC3, sensorDevA, sensorDevB]
  norm_num

lemma calcHumC3 :
    calculate_weighted_climate (entityForC3 .humidity) sensorValueC3
      (lookupGroup weightedGroupsC3 "livingroom") = none := by
  simp [calculate_weighted_climate, climate_step, lookupGroup, weightedGroupsC3,
    entityForC3]

lemma formatC3 : formatOneDecimal (62/3) = 207 := by
  norm_num [formatOneDecimal, round_eq]

lemma eventsC3_eq : eventsC3 = [⟨"livingroom", .temperature, .val 207⟩] := by
  simp [eventsC3, update_room_climate_sensors, trvGroupsC3, area_events,
    calcTempC3, calcHumC3, formatC3]

lemma writesC3_eq : writesC3 = [⟨trvDevC3, CLUSTER_THERMOSTAT,
    ATTR_EXTERNAL_MEASURED_ROOM_SENSOR, 2070⟩] := by
  have hstore : storeC3 "livingroom" DeviceClass.temperature
      = some (.val 207) := by
    simp [storeC3, applyEvents, eventsC3_eq]
  simp [writesC3, update_external_temperatures, trvGroupsC3, hstore]
  norm_num [round_eq]

/-! The claims. -/

/-- C1: a second `submit` for the same `(device, cluster, attribute)` key
whose immediate write attempt fails leaves exactly one pending entry for
that key, holding the second request's value and description, retry count 0
and the time of the second attempt; no state of the first request
survives. -/
theorem C1_supersession {V : Type} (m : PendingMap V)
    (hnd : (m.map Prod.fst).Nodup) (device : DeviceEntry) (cluster attr : Nat)
    (v1 v2 : V) (d1 d2 : String) (t1 t2 : ℤ) :
    ((queue_zigbee_write
        (queue_zigbee_write m device cluster attr v1 d1 true false t1).2
        device cluster attr v2 d2 true false t2).2).filter
      (fun p => p.1 = (device.id, cluster, attr))
      = [((device.id, cluster, attr),
          ⟨device.id, device.name_by_user, cluster, attr, v2, d2, 0, t2⟩)] := by
  have h1 : (queue_zigbee_write m device cluster attr v1 d1 true false t1).2
      = pySet m (device.id, cluster, attr)
          ⟨device.id, device.name_by_user, cluster, attr, v1, d1, 0, t1⟩ := rfl
  have h2 : (queue_zigbee_write
        (queue_zigbee_write m device cluster attr v1 d1 true false t1).2
        device cluster attr v2 d2 true false t2).2
      = pySet (queue_zigbee_write m device cluster attr v1 d1 true false t1).2
          (device.id, cluster, attr)
          ⟨device.id, device.name_by_user, cluster, attr, v2, d2, 0, t2⟩ := rfl
  rw [h2, h1]
  exact filter_pySet_self _ _ _ (nodup_keys_pySet m _ _ hnd)

/-- C1 witness: concrete two-submit run from the empty map. -/
theorem C1_supersession_witness :
    (([] : PendingMap ℤ).map Prod.fst).Nodup
    ∧ ((queue_zigbee_write
          (queue_zigbee_write ([] : PendingMap ℤ) wDev CLUSTER_THERMOSTAT
            ATTR_EXTERNAL_MEASURED_ROOM_SENSOR 2000 "first" true false 5).2
          wDev CLUSTER_THERMOSTAT ATTR_EXTERNAL_MEASURED_ROOM_SENSOR
          2100 "second" true false 9).2).filter
        (fun p => p.1 = (wDev.id, CLUSTER_THERMOSTAT,
            ATTR_EXTERNAL_MEASURED_ROOM_SENSOR))
        = [((wDev.id, CLUSTER_THERMOSTAT, ATTR_EXTERNAL_MEASURED_ROOM_SENSOR),
            ⟨wDev.id, wDev.name_by_user, CLUSTER_THERMOSTAT,
              ATTR_EXTERNAL_MEASURED_ROOM_SENSOR, 2100, "second", 0, 9⟩)] :=
  ⟨by simp,
   C1_supersession ([] : PendingMap ℤ) (by simp) wDev CLUSTER_THERMOSTAT
     ATTR_EXTERNAL_MEASURED_ROOM_SENSOR 2000 2100 "first" "second" 5 9⟩

/-- C2: the sweep's backoff delay is `min(60 * 2^retry_count, 14400)`
seconds, non-decreasing in the retry count, at most 14400, with the table
60, 120, 240, 480, 960, 1920, 3840, 7680, 14400 for counts 0..8 and the
ceiling first binding at count 8; an entry whose elapsed time since last
attempt is below its delay is left untouched (and not attempted) by the
sweep. -/
theorem C2_backoff_delay {V : Type} (env : SweepEnv) (now : ℤ)
    (m : PendingMap V) (key : WKey) (e : PendingWrite V)
    (hget : pyGet m key = some e)
    (hwait : now - e.last_attempt < (backoff_delay e.retry_count : ℤ)) :
    (∀ rc, backoff_delay rc = min (60 * 2 ^ rc) 14400)
    ∧ (∀ a b, a ≤ b → backoff_delay a ≤ backoff_delay b)
    ∧ (∀ rc, backoff_delay rc ≤ 14400)
    ∧ [0, 1, 2, 3, 4, 5, 6, 7, 8].map backoff_delay
        = [60, 120, 240, 480, 960, 1920, 3840, 7680, 14400]
    ∧ (∀ rc, rc < 8 → BASE_DELAY_SECONDS * 2 ^ rc < MAX_DELAY_SECONDS)
    ∧ MAX_DELAY_SECONDS < BASE_DELAY_SECONDS * 2 ^ 8
    ∧ pyGet (process_pending_writes env now m).1 key = some e
    ∧ key ∉ (process_pending_writes env now m).2 := by
  have huntouched :=
    foldl_sweep_untouched env now key e hwait (m.map Prod.fst) (m, [])
      hget (by simp)
  refine ⟨fun rc => rfl, ?_, fun rc => min_le_right _ _, by decide, by decide,
    by decide, huntouched.1, huntouched.2⟩
  intro a b hab
  exact min_le_min
    (Nat.mul_le_mul_left _ (Nat.pow_le_pow_right (by norm_num) hab))
    (le_refl _)

/-- C2 witness: a single not-yet-due entry survives a sweep unchanged. -/
theorem C2_backoff_delay_witness :
    pyGet wMap wKey = some wEntry
    ∧ ((10 : ℤ) - wEntry.last_attempt
        < (backoff_delay wEntry.retry_count : ℤ))
    ∧ pyGet (process_pending_writes wEnvIdle 10 wMap).1 wKey = some wEntry
    ∧ wKey ∉ (process_pending_writes wEnvIdle 10 wMap).2 :=
  ⟨by decide, by decide,
   (C2_backoff_delay wEnvIdle 10 wMap wKey wEntry (by decide)
     (by decide)).2.2.2.2.2.2.1,
   (C2_backoff_delay wEnvIdle 10 wMap wKey wEntry (by decide)
     (by decide)).2.2.2.2.2.2.2⟩

/-- C4: `calculate_weighted_climate` returns `None` exactly when the weights
of the samples with an available reading sum to zero (in particular on the
empty list), and otherwise returns the quotient of the available-sample
numerator by that weight sum — excluded samples contribute to neither. -/
theorem C4_no_data_iff (entityFor : DeviceEntry → Option String)
    (sensorValue : String → Option ℚ) (wd : List (DeviceEntry × ℚ)) :
    (calculate_weighted_climate entityFor sensorValue wd = none
       ↔ availableWeightSum entityFor sensorValue wd = 0)
    ∧ calculate_weighted_climate entityFor sensorValue [] = none
    ∧ calculate_weighted_climate entityFor sensorValue wd
        = (if availableWeightSum entityFor sensorValue wd = 0 then none
           else some (availableNumerator entityFor sensorValue wd
                       / availableWeightSum entityFor sensorValue wd)) := by
  refine ⟨?_, by simp [calculate_weighted_climate],
    calculate_weighted_climate_eq _ _ _⟩
  rw [calculate_weighted_climate_eq]
  by_cases h : availableWeightSum entityFor sensorValue wd = 0
  · simp [h]
  · simp [h]

/-- C9: a `submit` whose target device cannot be resolved to a ZHA network
identity returns `False` without attempting any transport write (the
outcome parameter is irrelevant) and leaves the pending map unchanged. -/
theorem C9_submit_unresolved {V : Type} (m : PendingMap V)
    (device : DeviceEntry) (cluster attr : Nat) (value : V)
    (description : String) (write_ok : Bool) (now : ℤ) :
    queue_zigbee_write m device cluster attr value description false
        write_ok now = (false, m) := rfl

/-- C5 counterexample: a due entry whose device is still in the registry but
fails ZHA resolution has its retry count incremented by the sweep (0 → 1),
contradicting "the retry count is not incremented" for resolution
failures. -/
theorem C5_resolution_counterexample :
    (pyGet (process_pending_writes envC5 100 mC5).1 keyC5).map
        (fun e => e.retry_count) = some 1
    ∧ ¬ ((pyGet (process_pending_writes envC5 100 mC5).1 keyC5).map
          (fun e => e.retry_count) = some 0
        ∨ pyGet (process_pending_writes envC5 100 mC5).1 keyC5 = none) := by
  refine ⟨by decide, ?_⟩
  intro h
  rcases h with h | h
  · exact absurd h (by decide)
  · exact absurd h (by decide)

/-- C5 (amended): when the device no longer exists in the registry, the sweep
removes the entry without a transport attempt and without touching the retry
count; but when the device exists and merely fails ZHA network resolution,
the sweep increments the retry count, refreshes the timestamp, and counts
the failure toward the retry ceiling (removing the entry when the ceiling is
reached), still without a transport attempt. -/
theorem C5_resolution_amended {V : Type} (env : SweepEnv) (now : ℤ)
    (st : PendingMap V × List WKey) (key : WKey) (e : PendingWrite V)
    (hget : pyGet st.1 key = some e)
    (hdue : ¬ now - e.last_attempt < (backoff_delay e.retry_count : ℤ)) :
    (env.registry e.device_id = none →
      sweep_step env now st key = (pyDel st.1 key, st.2))
    ∧ (∀ d, env.registry e.device_id = some d → env.zha d = false →
        sweep_step env now st key
          = (if MAX_RETRIES ≤ e.retry_count + 1 then pyDel st.1 key
             else pySet st.1 key
               { e with retry_count := e.retry_count + 1,
                        last_attempt := now }, st.2)) := by
  constructor
  · intro hreg
    unfold sweep_step
    rw [hget]
    simp [hdue, hreg]
  · intro d hreg hzha
    unfold sweep_step
    rw [hget]
    simp [hdue, hreg, hzha]

/-- C5 witness: the amended behaviour at the concrete counterexample input. -/
theorem C5_resolution_witness :
    pyGet (mC5, ([] : List WKey)).1 keyC5 = some entryC5
    ∧ ¬ (100 : ℤ) - entryC5.last_attempt
        < (backoff_delay entryC5.retry_count : ℤ)
    ∧ sweep_step envC5 100 (mC5, ([] : List WKey)) keyC5
        = (if MAX_RETRIES ≤ entryC5.retry_count + 1 then pyDel mC5 keyC5
           else pySet mC5 keyC5
             { entryC5 with retry_count := entryC5.retry_count + 1,
                            last_attempt := 100 }, ([] : List WKey)) :=
  ⟨by decide, by decide,
   (C5_resolution_amended envC5 100 (mC5, ([] : List WKey)) keyC5 entryC5
     (by decide) (by decide)).2 devC5 (by decide) (by decide)⟩

/-- C6: when a due entry's transport retry fails, the sweep increments its
retry count and refreshes its last-attempt timestamp; reaching the retry
ceiling (10) removes the entry from the pending map; and a key absent from
the pending map is neither present after a sweep nor ever attempted by
it. -/
theorem C6_retry_exhaustion {V : Type} (env : SweepEnv) (now : ℤ)
    (st : PendingMap V × List WKey) (key : WKey) (e : PendingWrite V)
    (d : DeviceEntry)
    (hget : pyGet st.1 key = some e)
    (hdue : ¬ now - e.last_attempt < (backoff_delay e.retry_count : ℤ))
    (hreg : env.registry e.device_id = some d)
    (hzha : env.zha d = true)
    (hfail : env.write_ok key = false) :
    (sweep_step env now st key
        = (if MAX_RETRIES ≤ e.retry_count + 1 then pyDel st.1 key
           else pySet st.1 key
             { e with retry_count := e.retry_count + 1,
                      last_attempt := now }, st.2 ++ [key]))
    ∧ ((st.1.map Prod.fst).Nodup → MAX_RETRIES ≤ e.retry_count + 1 →
        pyGet (sweep_step env now st key).1 key = none)
    ∧ (∀ m' : PendingMap V, pyGet m' key = none →
        pyGet (process_pending_writes env now m').1 key = none
          ∧ key ∉ (process_pending_writes env now m').2) := by
  have hstep : sweep_step env now st key
      = (if MAX_RETRIES ≤ e.retry_count + 1 then pyDel st.1 key
         else pySet st.1 key
           { e with retry_count := e.retry_count + 1,
                    last_attempt := now }, st.2 ++ [key]) := by
    unfold sweep_step
    rw [hget]
    simp [hdue, hreg, hzha, hfail]
  refine ⟨hstep, ?_, ?_⟩
  · intro hnd hmax
    rw [hstep]
    simp only [if_pos hmax]
    exact pyGet_pyDel_self st.1 key hnd
  · intro m' hnone
    exact foldl_sweep_absent env now key (m'.map Prod.fst) (m', [])
      ((pyGet_eq_none_iff m' key).mp hnone) hnone (by simp)

/-- C6 witness: a concrete due entry whose transport retry fails. -/
theorem C6_retry_exhaustion_witness :
    pyGet (wMap, ([] : List WKey)).1 wKey = some wEntry
    ∧ ¬ (100 : ℤ) - wEntry.last_attempt
        < (backoff_delay wEntry.retry_count : ℤ)
    ∧ wEnvFail.registry wEntry.device_id = some wDev
    ∧ wEnvFail.zha wDev = true
    ∧ wEnvFail.write_ok wKey = false
    ∧ sweep_step wEnvFail 100 (wMap, ([] : List WKey)) wKey
        = (if MAX_RETRIES ≤ wEntry.retry_count + 1 then pyDel wMap wKey
           else pySet wMap wKey
             { wEntry with retry_count := wEntry.retry_count + 1,
                           last_attempt := 100 }, [] ++ [wKey]) :=
  ⟨by decide, by decide, by decide, by decide, by decide,
   (C6_retry_exhaustion wEnvFail 100 (wMap, ([] : List WKey)) wKey wEntry
     wDev (by decide) (by decide) (by decide) (by decide) (by decide)).1⟩

/-- C7: on a non-empty sample set whose weights are all strictly positive
and whose readings are all available, `calculate_weighted_climate` returns a
value, and that value lies between any lower bound and any upper bound of
the sample values — in particular between their minimum and maximum. -/
theorem C7_weighted_mean_bounds (entityFor : DeviceEntry → Option String)
    (sensorValue : String → Option ℚ) (wd : List (DeviceEntry × ℚ))
    (lo hi : ℚ) (hne : wd ≠ [])
    (hpos : ∀ dw ∈ wd, 0 < dw.2)
    (havail : ∀ dw ∈ wd, ((entityFor dw.1).bind sensorValue).isSome = true)
    (hlo : ∀ p ∈ includedPairs entityFor sensorValue wd, lo ≤ p.1)
    (hhi : ∀ p ∈ includedPairs entityFor sensorValue wd, p.1 ≤ hi) :
    ∃ r, calculate_weighted_climate entityFor sensorValue wd = some r
      ∧ lo ≤ r ∧ r ≤ hi := by
  have hPne : includedPairs entityFor sensorValue wd ≠ [] := by
    cases wd with
    | nil => exact absurd rfl hne
    | cons dw tl =>
      rcases Option.isSome_iff_exists.mp
        (havail dw (List.mem_cons_self dw tl)) with ⟨v, hv⟩
      have hf : ((entityFor dw.1).bind sensorValue).map (fun v => (v, dw.2))
          = some (v, dw.2) := by rw [hv]; rfl
      rw [includedPairs_cons_some entityFor sensorValue dw tl (v, dw.2) hf]
      simp
  have hwpos : ∀ p ∈ includedPairs entityFor sensorValue wd, 0 < p.2 := by
    intro p hp
    rcases List.mem_filterMap.mp hp with ⟨dw, hdw, hf⟩
    cases hb : (entityFor dw.1).bind sensorValue with
    | none => rw [hb] at hf; exact absurd hf (by simp)
    | some v =>
      rw [hb] at hf
      have hp2 : (v, dw.2) = p := by simpa using hf
      rw [← hp2]
      exact hpos dw hdw
  have hden : 0 < availableWeightSum entityFor sensorValue wd := by
    unfold availableWeightSum
    exact pairs_weight_sum_pos _ hPne hwpos
  refine ⟨availableNumerator entityFor sensorValue wd
    / availableWeightSum entityFor sensorValue wd, ?_, ?_, ?_⟩
  · rw [calculate_weighted_climate_eq, if_neg (ne_of_gt hden)]
  · rw [le_div_iff₀ hden]
    have := le_pairs_weighted_sum (includedPairs entityFor sensorValue wd) lo
      (fun p hp => le_of_lt (hwpos p hp)) hlo
    unfold availableNumerator availableWeightSum
    exact this
  · rw [div_le_iff₀ hden]
    have := pairs_weighted_sum_le (includedPairs entityFor sensorValue wd) hi
      (fun p hp => le_of_lt (hwpos p hp)) hhi
    unfold availableNumerator availableWeightSum
    exact this

/-- C7 witness: two all-available positive-weight samples reading 20 and 22
average to a value between 20 and 22. -/
theorem C7_weighted_mean_bounds_witness :
    ([(sensorDevA, (1 : ℚ)), (sensorDevB, 1/2)] ≠ [])
    ∧ (∃ r, calculate_weighted_climate (entityForC3 .temperature) sensorValueC3
        [(sensorDevA, 1), (sensorDevB, 1/2)] = some r ∧ 20 ≤ r ∧ r ≤ 22) :=
  ⟨by simp,
   C7_weighted_mean_bounds (entityForC3 .temperature) sensorValueC3
     [(sensorDevA, 1), (sensorDevB, 1/2)] 20 22 (by simp)
     (by
       intro dw hdw
       fin_cases hdw <;> norm_num)
     (by
       intro dw hdw
       fin_cases hdw <;> rfl)
     (by
       intro p hp
       simp [includedPairs, entityForC3, sensorValueC3, sensorDevA,
         sensorDevB] at hp
       rcases hp with rfl | rfl <;> norm_num)
     (by
       intro p hp
       simp [includedPairs, entityForC3, sensorValueC3, sensorDevA,
         sensorDevB] at hp
       rcases hp with rfl | rfl <;> norm_num)⟩

/-- C8: for an area with at least one controlled device, a cycle publishes
the explicit `unavailable` temperature state when temperature aggregation
yields no data, and publishes nothing at all for the area's humidity sensor
when humidity aggregation yields no data. -/
theorem C8_publish_policy
    (entityFor : DeviceClass → DeviceEntry → Option String)
    (sensorValue : String → Option ℚ)
    (trv_by_area : List (String × List DeviceEntry))
    (weighted_by_area : List (String × List (DeviceEntry × ℚ)))
    (area : String) (devs : List DeviceEntry)
    (hmem : (area, devs) ∈ trv_by_area) :
    (calculate_weighted_climate (entityFor .temperature) sensorValue
        (lookupGroup weighted_by_area area) = none →
      (⟨area, .temperature, .unavailable⟩ : PublishEvent)
        ∈ update_room_climate_sensors entityFor sensorValue trv_by_area
            weighted_by_area)
    ∧ (calculate_weighted_climate (entityFor .humidity) sensorValue
        (lookupGroup weighted_by_area area) = none →
      ∀ s : SensorState, (⟨area, .humidity, s⟩ : PublishEvent)
        ∉ update_room_climate_sensors entityFor sensorValue trv_by_area
            weighted_by_area) := by
  constructor
  · intro hnone
    apply List.mem_flatMap.mpr
    refine ⟨(area, devs), hmem, ?_⟩
    simp only [area_events]
    rw [hnone]
    cases hm : calculate_weighted_climate (entityFor .humidity) sensorValue
        (lookupGroup weighted_by_area area) with
    | none => simp
    | some h => simp
  · intro hnone s hev
    rcases List.mem_flatMap.mp hev with ⟨p, hp, hev2⟩
    have harea : area = p.1 := by
      simpa using
        area_events_mem_area entityFor sensorValue weighted_by_area p _ hev2
    subst harea
    exact area_events_no_humidity entityFor sensorValue weighted_by_area p
      hnone s hev2

/-- C8 witness: an area with a controlled device and no weighted sensors
publishes an unavailable temperature and no humidity state. -/
theorem C8_publish_policy_witness :
    ("areaB", [wDev]) ∈ trvGroupsC8
    ∧ (⟨"areaB", .temperature, .unavailable⟩ : PublishEvent)
        ∈ update_room_climate_sensors noEntity noValue trvGroupsC8 []
    ∧ (⟨"areaB", .humidity, SensorState.unavailable⟩ : PublishEvent)
        ∉ update_room_climate_sensors noEntity noValue trvGroupsC8 [] :=
  ⟨by decide,
   (C8_publish_policy noEntity noValue trvGroupsC8 [] "areaB" [wDev]
     (by decide)).1 (by decide),
   (C8_publish_policy noEntity noValue trvGroupsC8 [] "areaB" [wDev]
     (by decide)).2 (by decide) SensorState.unavailable⟩

/-- C10: a device whose area identifier is absent is classified neither as a
controlled TRV nor as a weighted sensor source by the device scan,
regardless of its model, labels or the weight parser. -/
theorem C10_no_area_excluded (parseF : String → Option ℚ)
    (devices : List DeviceEntry) (d : DeviceEntry)
    (h : d.area_id = none) :
    (∀ p ∈ (get_all_climate_devices parseF devices).1, d ∉ p.2)
    ∧ (∀ p ∈ (get_all_climate_devices parseF devices).2,
        ∀ w : ℚ, (d, w) ∉ p.2) := by
  have hinv := scan_devices_area parseF devices ([], []) (by simp) (by simp)
  constructor
  · intro p hp hd
    have h2 : d.area_id = some p.1 := hinv.1 p hp d hd
    rw [h] at h2
    exact Option.noConfusion h2
  · intro p hp w hw
    have h2 : d.area_id = some p.1 := hinv.2 p hp (d, w) hw
    rw [h] at h2
    exact Option.noConfusion h2

/-- C10 witness: a TRV-modelled, weight-labelled device without an area is
not grouped, while a device with an area is. -/
theorem C10_no_area_excluded_witness :
    orphanDev.area_id = none
    ∧ orphanDev ∉ [wDev] :=
  ⟨rfl,
   (C10_no_area_excluded (fun _ => some 1) [wDev, orphanDev] orphanDev
     rfl).1 ("area1", [wDev]) (by decide)⟩

/-- C3 counterexample: in the two-sensor scenario (weights 1.0 and 0.5,
readings 20.0 and 22.0) the published temperature is 20.7 — one decimal, not
20.67 — and the feedback write carries 2070, not 2067. -/
theorem C3_scenario_counterexample :
    eventsC3 = [⟨"livingroom", .temperature, .val 207⟩]
    ∧ ((207 : ℚ) / 10 ≠ 2067 / 100)
    ∧ writesC3.map (fun w => w.value) = [2070]
    ∧ writesC3.map (fun w => w.value) ≠ [2067]
    ∧ ((2070 : ℤ) ≠ 2067) :=
  ⟨eventsC3_eq, by norm_num, by rw [writesC3_eq]; rfl,
   by rw [writesC3_eq]; simp, by norm_num⟩

/-- C3 (amended): the weighted mean is 62/3 ≈ 20.67, published rounded to
one decimal as 20.7, and the controlled device's feedback write carries the
fixed-point value 2070 (the published one-decimal temperature times 100). -/
theorem C3_scenario_amended :
    calculate_weighted_climate (entityForC3 .temperature) sensorValueC3
        (lookupGroup weightedGroupsC3 "livingroom") = some (62/3)
    ∧ formatOneDecimal (62/3) = 207
    ∧ eventsC3 = [⟨"livingroom", .temperature, .val 207⟩]
    ∧ writesC3 = [⟨trvDevC3, CLUSTER_THERMOSTAT,
        ATTR_EXTERNAL_MEASURED_ROOM_SENSOR, 2070⟩] :=
  ⟨calcTempC3, formatC3, eventsC3_eq, writesC3_eq⟩

end Danfoss
